import Mathlib

/-!
Shallow embedding of the wft repository (a fine-tuning orchestration wrapper
around external ML libraries) and proofs about its behaviour.

Conventions of the embedding:
* Python instance mutation is modelled by returning an updated copy of the
  builder structure; a method that can raise returns
  `Except (String × WhisperFineTuner) ...` where the error carries the
  exception message together with the builder state at the moment of the
  raise (so unchanged-on-error is expressible).
* External library handles (feature extractor, tokenizer, datasets, metrics,
  trainer) are modelled as plain data records that track exactly the
  information this repository's code puts into them or reads from them.
* Hardware probes (bf16/cuda availability), the dataset hub's schemas, and
  the results of network calls are passed in as explicit environment records.
-/

namespace Wft

/-- Hardware environment: results of the accelerate availability probes used
in the constructor of WhisperFineTuner. -/
structure HwEnv where
  bf16_available : Bool
  cuda_available : Bool
deriving DecidableEq

/-- Torch dtypes that appear in finetuner.py. -/
inductive DType where
  | bfloat16
  | float16
  | float32
deriving DecidableEq

/-- Handle returned by WhisperFeatureExtractor.from_pretrained. -/
structure WhisperFeatureExtractor where
  baseline : String
deriving DecidableEq

/-- Handle returned by WhisperTokenizer.from_pretrained with language/task. -/
structure WhisperTokenizer where
  baseline : String
  language : String
  task : String
deriving DecidableEq

/-- Handle returned by WhisperProcessor.from_pretrained with language/task. -/
structure WhisperProcessor where
  baseline : String
  language : String
  task : String
deriving DecidableEq

/-- Handle for the baseline Whisper model: from_pretrained plus the two
config fields set_baseline overwrites (forced_decoder_ids, suppress_tokens). -/
structure WhisperModel where
  baseline : String
  dtype : DType
  forced_decoder_ids : Option (List (Nat × Nat))
  suppress_tokens : List Nat
deriving DecidableEq

/-- The peft LoraConfig record, with the fields finetuner.py constructs or
later assigns (total_step and tinit are set inside train). -/
structure LoraConfig where
  r : Nat
  lora_alpha : Nat
  use_rslora : Bool
  target_modules : List String
  lora_dropout : Rat
  bias : String
  total_step : Option Nat
  tinit : Option Nat
deriving DecidableEq

/-- Result of peft's get_peft_model: the base model wrapped with an adapter. -/
structure PeftModel where
  base : WhisperModel
  config : LoraConfig
deriving DecidableEq

/-- Result of merge_and_unload followed by a dtype cast: the adapter merged
into the base model. -/
structure MergedModel where
  base : WhisperModel
  config : LoraConfig
  dtype : DType
deriving DecidableEq

/-- Handle returned by evaluate.load; the repository only reads its name and
calls compute on it. -/
structure EvaluationModule where
  name : String
deriving DecidableEq

/-- The model of evaluate.load used in set_metric. -/
def evaluate_load (metric_type : String) : EvaluationModule :=
  { name := metric_type }

/-- The Seq2SeqTrainingArguments fields that finetuner.py and preset.py
construct, read or assign. -/
structure TrainingArgs where
  output_dir : String
  per_device_train_batch_size : Nat
  per_device_eval_batch_size : Nat
  auto_find_batch_size : Bool
  gradient_checkpointing : Bool
  generation_max_length : Nat
  gradient_accumulation_steps : Nat
  learning_rate : Rat
  warmup_steps : Nat
  max_steps : Nat
  num_train_epochs : Rat
  eval_strategy : String
  eval_steps : Nat
  eval_on_start : Bool
  eval_accumulation_steps : Nat
  save_strategy : String
  save_steps : Nat
  save_total_limit : Nat
  load_best_model_at_end : Bool
  bf16 : Bool
  fp16 : Bool
  remove_unused_columns : Bool
  label_names : List String
  report_to : List String
  logging_steps : Nat
  push_to_hub : Bool
  hub_model_id : Option String
  hub_strategy : String
  metric_for_best_model : Option String
  greater_is_better : Option Bool
  dataloader_num_workers : Nat
deriving DecidableEq

/-- Environment for the datasets library: the column names the hub reports
for a given (dataset name, subset, split). -/
structure DataEnv where
  column_names : String → Option String → String → List String

/-- One load_dataset call: the dataset name, optional config/subset name,
and the split string handed to the library verbatim. -/
structure LoadSpec where
  name : String
  config : Option String
  split : String
deriving DecidableEq

/-- A dataset handle as this repository observes it: the underlying load
calls (several when interleaved), whether it is a streaming (lazily
yielded) dataset, its column names, and the pending cast/format/shuffle
transformations applied by prepare_dataset.py. -/
structure HFDataset where
  sources : List LoadSpec
  interleaved : Bool
  streaming : Bool
  columns : List String
  audio_cast : Option (String × Nat)
  fmt : Option String
  shuffle_args : Option (Nat × Nat)
deriving DecidableEq

/-- Model of datasets.load_dataset: streaming=true yields an IterableDataset
(lazily yielded), streaming=false a fully materialized Dataset. The split
string is passed through to the library verbatim. -/
def load_dataset (denv : DataEnv) (name : String) (config : Option String)
    (split : String) (streaming : Bool) : HFDataset :=
  { sources := [{ name := name, config := config, split := split }]
    interleaved := false
    streaming := streaming
    columns := denv.column_names name config split
    audio_cast := none
    fmt := none
    shuffle_args := none }

/-- Model of datasets.interleave_datasets: the result draws from all the
inputs' sources and streams exactly when all inputs stream (in
prepare_dataset.py all inputs are streaming loads). -/
def interleave_datasets (ds : List HFDataset) : HFDataset :=
  { sources := ds.flatMap (fun d => d.sources)
    interleaved := true
    streaming := ds.all (fun d => d.streaming)
    columns := ((ds.head?).map (fun d => d.columns)).getD []
    audio_cast := none
    fmt := none
    shuffle_args := none }

/-- Model of Dataset.remove_columns. -/
def HFDataset.remove_columns (d : HFDataset) (cols : List String) : HFDataset :=
  { d with columns := d.columns.filter (fun c => !(cols.contains c)) }

/-- Model of Dataset.cast_column with an Audio feature. -/
def HFDataset.cast_column (d : HFDataset) (col : String) (sampling_rate : Nat) : HFDataset :=
  { d with audio_cast := some (col, sampling_rate) }

/-- Model of Dataset.map: the mapping function of prepare_dataset.py adds
the given columns, and the remove_columns argument drops the listed ones. -/
def HFDataset.map_columns (d : HFDataset) (added : List String)
    (removed : List String) : HFDataset :=
  { d with columns := d.columns.filter (fun c => !(removed.contains c)) ++ added }

/-- Model of Dataset.with_format. -/
def HFDataset.with_format (d : HFDataset) (f : String) : HFDataset :=
  { d with fmt := some f }

/-- Model of Dataset.shuffle with a buffer size and seed. -/
def HFDataset.shuffle (d : HFDataset) (buffer_size seed : Nat) : HFDataset :=
  { d with shuffle_args := some (buffer_size, seed) }

/-- Python str.split with a single-character separator, over the character
list (so it is kernel-computable). Like Python, a string without the
separator yields the one-element list, and adjacent separators yield empty
parts. -/
def py_split (sep : Char) : List Char → List (List Char)
  | [] => [[]]
  | c :: rest =>
    if c = sep then [] :: py_split sep rest
    else
      match py_split sep rest with
      | [] => [[c]]
      | g :: gs => (c :: g) :: gs

/-- The Python expression used in load_streaming_dataset: split.split on
the plus character, each part as a string. -/
def split_plus (s : String) : List String :=
  (py_split '+' s.data).map String.mk

/-- The Python membership test used in load_streaming_dataset: whether the
plus character occurs in the split string. -/
def contains_plus (s : String) : Bool :=
  s.data.contains '+'

/-- load_streaming_dataset from prepare_dataset.py: splits containing the
plus character are loaded per part in streaming mode and interleaved; any
other split string is loaded, verbatim, as a single streaming split. -/
def load_streaming_dataset (denv : DataEnv) (dataset_name : String)
    (dataset_config_name : Option String) (split : String) : HFDataset :=
  if contains_plus split then
    interleave_datasets ((split_plus split).map (fun split_name =>
      load_dataset denv dataset_name dataset_config_name split_name true))
  else
    load_dataset denv dataset_name dataset_config_name split true

/-- The train/test pair returned by prepare_dataset.py (a DatasetDict with
keys train and test). -/
structure DatasetPair where
  train : HFDataset
  test : HFDataset
deriving DecidableEq

/-- prepare_dataset from prepare_dataset.py: the train split goes through
load_streaming_dataset; the test split is loaded by a plain load_dataset
call (no streaming argument, so streaming is false); both are then column
filtered, audio cast to 16kHz, mapped to input_features/labels, put in
torch format, and the train split is shuffled with seed 42. -/
def prepare_dataset (denv : DataEnv) (src_name : String)
    (feature_extractor : WhisperFeatureExtractor) (tokenizer : WhisperTokenizer)
    (src_audio_column : String) (src_transcription_column : String)
    (src_subset : Option String) (src_train_split : String)
    (src_test_split : String) (buffer_size : Nat) : DatasetPair :=
  let train := load_streaming_dataset denv src_name src_subset src_train_split
  let test := load_dataset denv src_name src_subset src_test_split false
  let train := train.remove_columns (train.columns.filter (fun col =>
    !([src_audio_column, src_transcription_column].contains col)))
  let test := test.remove_columns (test.columns.filter (fun col =>
    !([src_audio_column, src_transcription_column].contains col)))
  let train := train.cast_column src_audio_column 16000
  let test := test.cast_column src_audio_column 16000
  let train := train.map_columns ["input_features", "labels"] train.columns
  let test := test.map_columns ["input_features", "labels"] test.columns
  let train := train.with_format "torch"
  let test := test.with_format "torch"
  let train := train.shuffle buffer_size 42
  { train := train, test := test }

/-- The WhisperFineTuner builder state: every instance attribute assigned in
finetuner.py (the trainer handle is part of the train outcome below). -/
structure WhisperFineTuner where
  id : String
  org : Option String
  dir : String
  baseline : Option String
  feature_extractor : Option WhisperFeatureExtractor
  tokenizer : Option WhisperTokenizer
  processor : Option WhisperProcessor
  dataset : Option DatasetPair
  original_dataset : Option String
  baseline_model : Option WhisperModel
  peft_model : Option PeftModel
  metric_primary : Option EvaluationModule
  metric_secondary : Option EvaluationModule
  lora_config : LoraConfig
  use_bf16 : Bool
  use_fp16 : Bool
  training_args : TrainingArgs
deriving DecidableEq

/-- WhisperFineTuner.__init__: the hardware probes fix the mixed-precision
flags (bf16 wins, fp16 only on cuda without bf16), and the default LoRA
config and training arguments are built. -/
def WhisperFineTuner.init (env : HwEnv) (id : String) (org : Option String) :
    WhisperFineTuner :=
  let use_bf16 := env.bf16_available
  let use_fp16 := if !use_bf16 then env.cuda_available else false
  let dir := "./exp/" ++ id
  { id := id
    org := org
    dir := dir
    baseline := none
    feature_extractor := none
    tokenizer := none
    processor := none
    dataset := none
    original_dataset := none
    baseline_model := none
    peft_model := none
    metric_primary := none
    metric_secondary := none
    lora_config :=
      { r := 32
        lora_alpha := 8
        use_rslora := true
        target_modules := ["q_proj", "k_proj", "v_proj", "out_proj", "fc1", "fc2"]
        lora_dropout := 5 / 100
        bias := "none"
        total_step := none
        tinit := none }
    use_bf16 := use_bf16
    use_fp16 := use_fp16
    training_args :=
      { output_dir := dir
        per_device_train_batch_size := 4
        per_device_eval_batch_size := 8
        auto_find_batch_size := true
        gradient_checkpointing := true
        generation_max_length := 128
        gradient_accumulation_steps := 1
        learning_rate := 5 / 1000000
        warmup_steps := 0
        max_steps := 1000
        num_train_epochs := 3
        eval_strategy := "steps"
        eval_steps := 1000
        eval_on_start := false
        eval_accumulation_steps := 32
        save_strategy := "steps"
        save_steps := 1000
        save_total_limit := 3
        load_best_model_at_end := true
        bf16 := use_bf16
        fp16 := use_fp16
        remove_unused_columns := false
        label_names := ["labels"]
        report_to := ["tensorboard"]
        logging_steps := 1
        push_to_hub := if org.isSome then true else false
        hub_model_id :=
          match org with
          | some o => some (o ++ "/" ++ id)
          | none => none
        hub_strategy := "checkpoint"
        metric_for_best_model := none
        greater_is_better := none
        dataloader_num_workers := 0 } }

/-- The dtype selection expression used in set_baseline and merge. -/
def WhisperFineTuner.pick_dtype (ft : WhisperFineTuner) : DType :=
  if ft.use_bf16 then DType.bfloat16
  else if ft.use_fp16 then DType.float16
  else DType.float32

/-- WhisperFineTuner.set_baseline: sets the baseline name, loads feature
extractor, tokenizer and processor, loads the model with the picked dtype,
clears forced_decoder_ids and suppress_tokens, and returns self. -/
def WhisperFineTuner.set_baseline (ft : WhisperFineTuner)
    (baseline language task : String) : WhisperFineTuner :=
  { ft with
    baseline := some baseline
    feature_extractor := some { baseline := baseline }
    tokenizer := some { baseline := baseline, language := language, task := task }
    processor := some { baseline := baseline, language := language, task := task }
    baseline_model := some
      { baseline := baseline
        dtype := ft.pick_dtype
        forced_decoder_ids := none
        suppress_tokens := [] } }

/-- WhisperFineTuner.prepare_dataset: raises ValueError when the baseline
has not been set (before touching any field), otherwise stores the prepared
dataset pair and the source name, returning self. An error carries the
message and the builder state at the raise. -/
def WhisperFineTuner.prepare_dataset (ft : WhisperFineTuner) (denv : DataEnv)
    (src_name src_audio_column src_transcription_column : String)
    (src_subset : Option String) (src_train_split src_test_split : String)
    (buffer_size : Nat) : Except (String × WhisperFineTuner) WhisperFineTuner :=
  match ft.feature_extractor, ft.tokenizer with
  | none, _ => Except.error ("Please set the baseline first.", ft)
  | _, none => Except.error ("Please set the baseline first.", ft)
  | some fe, some tok =>
    Except.ok
      { ft with
        dataset := some (Wft.prepare_dataset denv src_name fe tok
          src_audio_column src_transcription_column src_subset
          src_train_split src_test_split buffer_size)
        original_dataset := some src_name }

/-- WhisperFineTuner.set_lora_config. -/
def WhisperFineTuner.set_lora_config (ft : WhisperFineTuner)
    (lora_config : LoraConfig) : WhisperFineTuner :=
  { ft with lora_config := lora_config }

/-- WhisperFineTuner.set_metric: the primary metric is loaded from the given
type, the secondary is the other member of the wer/cer pair. -/
def WhisperFineTuner.set_metric (ft : WhisperFineTuner) (metric_type : String) :
    WhisperFineTuner :=
  { ft with
    metric_primary := some (evaluate_load metric_type)
    metric_secondary := some (evaluate_load
      (if metric_type = "wer" then "cer" else "wer")) }

/-- WhisperFineTuner.set_training_args. -/
def WhisperFineTuner.set_training_args (ft : WhisperFineTuner)
    (training_args : TrainingArgs) : WhisperFineTuner :=
  { ft with training_args := training_args }

/-- WhisperFineTuner.set_steps. -/
def WhisperFineTuner.set_steps (ft : WhisperFineTuner)
    (max_steps eval_steps save_steps : Nat) : WhisperFineTuner :=
  { ft with training_args :=
      { ft.training_args with
        max_steps := max_steps
        eval_steps := eval_steps
        save_steps := save_steps } }

/-- Environment for the resume path of train: whether the output directory
exists, the result of the hub snapshot download, and the result of
get_last_checkpoint on the output directory (indexed by whether a download
just ran, since that changes the directory contents). -/
structure TrainEnv where
  dir_exists : Bool
  snapshot_download : Except String Unit
  get_last_checkpoint : Bool → Except String (Option String)

/-- The body of the try block in the resume branch of train: download a hub
snapshot when an organization is configured and the output directory is
absent, then look for a checkpoint; any failure (download error,
get_last_checkpoint error, or no checkpoint present) is an exception. -/
def resume_attempt (org : Option String) (env : TrainEnv) : Except String Unit :=
  let downloads := org.isSome && !env.dir_exists
  match (if downloads then env.snapshot_download else Except.ok ()) with
  | Except.error e => Except.error e
  | Except.ok _ =>
    match env.get_last_checkpoint downloads with
    | Except.error e => Except.error e
    | Except.ok none => Except.error "No checkpoint found."
    | Except.ok (some _) => Except.ok ()

/-- The resume branch of train: on any exception from the attempt the error
is logged and the resume flag is cleared; otherwise the flag is kept. -/
def resolve_resume (org : Option String) (env : TrainEnv) (resume : Bool) :
    Bool × List String :=
  if resume then
    match resume_attempt org env with
    | Except.ok _ => (true, [])
    | Except.error e =>
      (false, ["Failed to resume training: " ++ e ++ ", starting from scratch."])
  else (resume, [])

/-- Observable effects of the repository beyond pure state updates. -/
inductive Action where
  | log (msg : String)
  | saveModel
  | pushToHub
  | exitProcess (code : Nat)
deriving DecidableEq

/-- Effects of WhisperFineTuner.push_to_hub (given a live trainer): the hub
upload happens exactly when an organization is configured. -/
def push_to_hub_actions (org : Option String) : List Action :=
  if org.isSome then [Action.pushToHub] else []

/-- The signal handler installed by train: print, save the model, and when
an organization is configured push to the hub, then exit with status 0. -/
def signal_handler (ft : WhisperFineTuner) : List Action :=
  [Action.log "Training stopped by user.",
   Action.saveModel,
   Action.log "Model saved locally."]
  ++ (if ft.org.isSome then
        push_to_hub_actions ft.org ++ [Action.log "Model pushed to the Hub."]
      else [])
  ++ [Action.log "Bye!", Action.exitProcess 0]

/-- The Seq2SeqTrainer as configured by train: its arguments, datasets and
the callback surgery performed on it. -/
structure Trainer where
  args : TrainingArgs
  train_dataset : HFDataset
  eval_dataset : HFDataset
  removed_callbacks : List String
  added_callbacks : List String
deriving DecidableEq

/-- Everything a successful train call produces: the updated builder, the
constructed trainer, the log lines and effective resume flag of the resume
branch, the installed interrupt handler, and the save/push effects run
after training. -/
structure TrainOutcome where
  ft : WhisperFineTuner
  trainer : Trainer
  resume_logs : List String
  effective_resume : Bool
  handler : List Action
  post_actions : List Action
deriving DecidableEq

/-- The optional training_args argument of train replaces the stored
training arguments when present. -/
def apply_training_args (ft : WhisperFineTuner) (ta : Option TrainingArgs) :
    WhisperFineTuner :=
  match ta with
  | some t => { ft with training_args := t }
  | none => ft

/-- The unconditional assignment of num_train_epochs to 0 in train. -/
def set_epochs_zero (ft : WhisperFineTuner) : WhisperFineTuner :=
  { ft with training_args :=
      { ft.training_args with num_train_epochs := 0 } }

/-- The tail of train after all checks: the primary metric name becomes
metric_for_best_model, the LoRA schedule fields are filled in, the resume
branch resolves the resume flag, the peft model and trainer are built, the
interrupt handler is installed, and after training the model is saved and
pushed when an organization is configured. -/
def train_body (ft : WhisperFineTuner) (ds : DatasetPair)
    (base_model : WhisperModel) (metric_primary : EvaluationModule)
    (resume : Bool) (env : TrainEnv) : TrainOutcome :=
  let ft := { ft with training_args :=
    { ft.training_args with
      metric_for_best_model := some metric_primary.name
      greater_is_better := some false } }
  let ft := { ft with lora_config :=
    { ft.lora_config with
      total_step := some ft.training_args.max_steps
      tinit := some ft.training_args.warmup_steps } }
  let rr := resolve_resume ft.org env resume
  let pm : PeftModel := { base := base_model, config := ft.lora_config }
  let ft := { ft with peft_model := some pm }
  let trainer : Trainer :=
    { args := ft.training_args
      train_dataset := ds.train
      eval_dataset := ds.test
      removed_callbacks := ["TensorBoardCallback", "ProgressCallback"]
      added_callbacks :=
        ["WFTProgressCallback"]
        ++ (if ft.training_args.report_to.contains "tensorboard" then
              ["WFTTensorBoardCallback"]
            else [])
        ++ ["ShuffleCallback", "PushCallback"] }
  { ft := ft
    trainer := trainer
    resume_logs := rr.2
    effective_resume := rr.1
    handler := signal_handler ft
    post_actions := [Action.saveModel] ++ push_to_hub_actions ft.org }

/-- WhisperFineTuner.train: the three precondition checks run before any
field is touched; then the optional training arguments replace the stored
ones, num_train_epochs is forced to 0, and the rest of the call is
train_body (raising when the metric was never set, as the source does when
it reads self.metric_primary.name). -/
def WhisperFineTuner.train (ft : WhisperFineTuner)
    (training_args : Option TrainingArgs) (resume : Bool) (env : TrainEnv) :
    Except (String × WhisperFineTuner) TrainOutcome :=
  match ft.dataset with
  | none => Except.error ("Please prepare or load the dataset first.", ft)
  | some ds =>
  if ft.feature_extractor.isNone || ft.tokenizer.isNone then
    Except.error ("Please set the baseline first.", ft)
  else
  match ft.baseline_model with
  | none => Except.error ("Please set the baseline first.", ft)
  | some base_model =>
    let ft := set_epochs_zero (apply_training_args ft training_args)
    match ft.metric_primary with
    | none =>
      Except.error ("AttributeError: NoneType object has no attribute name", ft)
    | some metric_primary =>
      Except.ok (train_body ft ds base_model metric_primary resume env)

/-- WhisperFineTuner.merge: merge_and_unload on the peft model, cast to the
given dtype or the picked one. -/
def WhisperFineTuner.merge (ft : WhisperFineTuner) (dtype : Option DType) :
    Except (String × WhisperFineTuner) MergedModel :=
  match ft.peft_model with
  | none =>
    Except.error
      ("AttributeError: NoneType object has no attribute merge_and_unload", ft)
  | some pm =>
    let dtype := match dtype with
      | some d => d
      | none => ft.pick_dtype
    Except.ok { base := pm.base, config := pm.config, dtype := dtype }

/-- Modelled from the spec: save_pretrained of a transformers model (an
external library call, not code of this repository) writes the model
weights file and the model configuration file into the output directory;
the spec requires that after the chain the output directory contain a
model-weights file and a configuration file, and the test asserts these
names. -/
def model_save_pretrained (outdir : String) : List String :=
  [outdir ++ "/model.safetensors", outdir ++ "/config.json"]

/-- Modelled from the spec: save_pretrained of a processor (external
library call) writes the processor configuration into the directory. -/
def processor_save_pretrained (outdir : String) : List String :=
  [outdir ++ "/preprocessor_config.json"]

/-- Modelled from the spec: save_pretrained of a tokenizer (external
library call) writes the tokenizer configuration into the directory. -/
def tokenizer_save_pretrained (outdir : String) : List String :=
  [outdir ++ "/tokenizer_config.json"]

/-- Result of merge_and_save: the returned builder, the merged model that
was written, and the file system (list of paths) after the writes. -/
structure SaveOutcome where
  ft : WhisperFineTuner
  merged : MergedModel
  files : List String
deriving DecidableEq

/-- WhisperFineTuner.merge_and_save: merge the adapter into the base model,
then save the merged model, the processor and the tokenizer into outdir,
returning self. The file system is passed explicitly as the list of
existing paths. -/
def WhisperFineTuner.merge_and_save (ft : WhisperFineTuner) (outdir : String)
    (dtype : Option DType) (fs : List String) :
    Except (String × WhisperFineTuner) SaveOutcome :=
  match ft.merge dtype with
  | Except.error e => Except.error e
  | Except.ok model =>
    match ft.processor, ft.tokenizer with
    | none, _ =>
      Except.error
        ("AttributeError: NoneType object has no attribute save_pretrained", ft)
    | _, none =>
      Except.error
        ("AttributeError: NoneType object has no attribute save_pretrained", ft)
    | some _, some _ =>
      Except.ok
        { ft := ft
          merged := model
          files := fs ++ model_save_pretrained outdir
            ++ processor_save_pretrained outdir
            ++ tokenizer_save_pretrained outdir }

/-- Header of the incorrect-predictions table in compute_metrics. -/
def mismatch_header : String :=
  "## Incorrect Predictions\n\n| i | Label | Prediction |\n| --- | --- | --- |\n"

/-- Header of the correct-predictions table in compute_metrics. -/
def match_header : String :=
  "## Correct Predictions\n\n| i | Prediction |\n| --- | --- |\n"

/-- One row of the incorrect-predictions table. -/
def mismatch_row (i : Nat) (label pred : String) : String :=
  "| " ++ toString i ++ " | " ++ label ++ " | " ++ pred ++ " |\n"

/-- One row of the correct-predictions table. -/
def match_row (i : Nat) (pred : String) : String :=
  "| " ++ toString i ++ " | " ++ pred ++ " |\n"

/-- The body of the loop in compute_metrics: a differing (label, pred) pair
appends a row to the incorrect table, an equal pair to the correct table. -/
def tables_step (acc : String × String) (x : Nat × String × String) :
    String × String :=
  if x.2.1 != x.2.2 then (acc.1 ++ mismatch_row x.1 x.2.1 x.2.2, acc.2)
  else (acc.1, acc.2 ++ match_row x.1 x.2.2)

/-- The dictionary returned by compute_metrics, after decoding: the two
metric keys with their values and the markdown report (the wall-clock
runtime entries of the source are not representable in this embedding and
are omitted). -/
structure MetricsResult where
  primary_key : String
  primary_value : Rat
  secondary_key : String
  secondary_value : Rat
  pred : String
deriving DecidableEq

/-- The compute_metrics closure of train, starting from the decoded label
and prediction string lists: both metric values are 100 times the metric
library compute result (modelled by the compute argument, called with the
predictions then the references), and the report is built by one pass over
the enumerated zip of labels and predictions. -/
def compute_metrics (metric_primary metric_secondary : EvaluationModule)
    (compute : String → List String → List String → Rat)
    (label_str pred_str : List String) : MetricsResult :=
  let metric_primary_result := 100 * compute metric_primary.name pred_str label_str
  let metric_secondary_result := 100 * compute metric_secondary.name pred_str label_str
  let tables :=
    ((label_str.zip pred_str).enum).foldl tables_step (mismatch_header, match_header)
  let mismatch_table := tables.1 ++ "\n"
  let matched_table := tables.2 ++ "\n"
  let markdown_table := mismatch_table ++ "\n" ++ matched_table
  { primary_key := metric_primary.name
    primary_value := metric_primary_result
    secondary_key := metric_secondary.name
    secondary_value := metric_secondary_result
    pred := markdown_table }

/-- The non-logging effects of an action list. -/
def effects (l : List Action) : List Action :=
  l.filter (fun a =>
    match a with
    | Action.log _ => false
    | _ => true)

/-- Concatenation of a list of table rows into one string. -/
def concat_rows : List String → String
  | [] => ""
  | r :: rs => r ++ concat_rows rs

/-- The rows of the incorrect-predictions table: one row per index whose
label differs from its prediction, in index order. -/
def mismatch_rows (label_str pred_str : List String) : List String :=
  (((label_str.zip pred_str).enum).filter (fun q => q.2.1 != q.2.2)).map
    (fun q => mismatch_row q.1 q.2.1 q.2.2)

/-- The rows of the correct-predictions table: one row per index whose
label equals its prediction, in index order. -/
def matched_rows (label_str pred_str : List String) : List String :=
  (((label_str.zip pred_str).enum).filter (fun q => q.2.1 == q.2.2)).map
    (fun q => match_row q.1 q.2.2)

/-- A concrete data environment: every dataset reports an audio and a
transcription column. -/
def denv0 : DataEnv :=
  { column_names := fun _ _ _ => ["audio", "transcription"] }

/-- A concrete train environment: the output directory does not exist,
downloads succeed, and no checkpoint is found. -/
def env0 : TrainEnv :=
  { dir_exists := false
    snapshot_download := Except.ok ()
    get_last_checkpoint := fun _ => Except.ok none }

/-- A freshly initialized builder without an organization. -/
def ft0 : WhisperFineTuner :=
  WhisperFineTuner.init { bf16_available := true, cuda_available := true }
    "whisper-test-1" none

/-- The builder after set_baseline. -/
def ft1 : WhisperFineTuner :=
  ft0.set_baseline "openai/whisper-tiny" "en" "transcribe"

/-- The builder after prepare_dataset (the error branch cannot occur here,
but the match keeps the definition total). -/
def ft2 : WhisperFineTuner :=
  match ft1.prepare_dataset denv0 "hf-internal-testing/librispeech_asr_dummy"
    "audio" "text" none "train+validation" "test" 256 with
  | Except.ok x => x
  | Except.error e => e.2

/-- The builder after set_metric. -/
def ft3 : WhisperFineTuner :=
  ft2.set_metric "wer"

/-- The builder after a successful train call. -/
def ft4 : WhisperFineTuner :=
  match ft3.train none false env0 with
  | Except.ok o => o.ft
  | Except.error e => e.2

/-- Training arguments with a nonzero epoch count, for exercising train. -/
def ta42 : TrainingArgs :=
  { ft0.training_args with num_train_epochs := 42 }

/-- The feature extractor held by ft1 through ft4. -/
def fe0 : WhisperFeatureExtractor :=
  { baseline := "openai/whisper-tiny" }

/-- The tokenizer held by ft1 through ft4. -/
def tok0 : WhisperTokenizer :=
  { baseline := "openai/whisper-tiny", language := "en", task := "transcribe" }

/-- The baseline model held by ft1 through ft4. -/
def bm0 : WhisperModel :=
  { baseline := "openai/whisper-tiny"
    dtype := DType.bfloat16
    forced_decoder_ids := none
    suppress_tokens := [] }

/-- The primary metric held by ft3 and ft4. -/
def mp0 : EvaluationModule :=
  { name := "wer" }

/-- The dataset pair held by ft2 through ft4. -/
def ds0 : DatasetPair :=
  prepare_dataset denv0 "hf-internal-testing/librispeech_asr_dummy" fe0 tok0
    "audio" "text" none "train+validation" "test" 256

/-- The secondary metric held by ft3 and ft4. -/
def ms0 : EvaluationModule :=
  { name := "cer" }

/-- A concrete metric compute function for exercising compute_metrics. -/
def cf0 : String → List String → List String → Rat :=
  fun _ _ _ => 0

/-- The loop of compute_metrics builds exactly the filtered, formatted rows
appended to the two accumulators, keeping the input order. -/
theorem tables_fold_eq (xs : List (Nat × String × String)) (a b : String) :
    xs.foldl tables_step (a, b) =
      (a ++ concat_rows ((xs.filter (fun q => q.2.1 != q.2.2)).map
        (fun q => mismatch_row q.1 q.2.1 q.2.2)),
       b ++ concat_rows ((xs.filter (fun q => q.2.1 == q.2.2)).map
        (fun q => match_row q.1 q.2.2))) := by
  induction xs generalizing a b with
  | nil => simp [concat_rows]
  | cons x t ih =>
    cases hx : x.2.1 == x.2.2 with
    | false =>
      simp only [List.foldl_cons, tables_step, bne, hx, Bool.not_false, if_pos,
        List.filter_cons, ih, concat_rows]
      simp [String.append_assoc]
    | true =>
      simp only [List.foldl_cons, tables_step, bne, hx, Bool.not_true, if_neg,
        List.filter_cons, ih, concat_rows]
      simp [String.append_assoc]

/-- Flattening singleton lists is a map. -/
theorem flatMap_singleton_map {α β : Type} (l : List α) (f : α → β) :
    (l.flatMap fun a => [f a]) = l.map f := by
  induction l with
  | nil => rfl
  | cons x t ih => simp [List.flatMap_cons, ih]

/-- C4: load_streaming_dataset loads each plus-separated split name
individually in streaming mode and interleaves them when the split string
contains a plus; otherwise it loads the single split, in streaming mode,
passing the split string through verbatim. -/
theorem claim_c4_split_selection (denv : DataEnv) (name : String)
    (cfg : Option String) (split : String) :
    (contains_plus split = true →
      load_streaming_dataset denv name cfg split =
        interleave_datasets ((split_plus split).map (fun split_name =>
          load_dataset denv name cfg split_name true)) ∧
      (load_streaming_dataset denv name cfg split).streaming = true ∧
      (load_streaming_dataset denv name cfg split).sources =
        (split_plus split).map (fun split_name =>
          { name := name, config := cfg, split := split_name })) ∧
    (contains_plus split = false →
      load_streaming_dataset denv name cfg split =
        load_dataset denv name cfg split true ∧
      (load_streaming_dataset denv name cfg split).streaming = true ∧
      (load_streaming_dataset denv name cfg split).sources =
        [{ name := name, config := cfg, split := split }]) := by
  constructor
  · intro h
    refine ⟨by simp [load_streaming_dataset, h], ?_, ?_⟩
    · simp [load_streaming_dataset, h, interleave_datasets, List.all_eq_true,
        load_dataset]
    · simp only [load_streaming_dataset, h, if_pos, interleave_datasets,
        load_dataset, List.flatMap_map]
      exact flatMap_singleton_map _ _
  · intro h
    refine ⟨by simp [load_streaming_dataset, h], ?_, ?_⟩
    · simp [load_streaming_dataset, h, load_dataset]
    · simp [load_streaming_dataset, h, load_dataset]

/-- Witness for C4 at a plus-joined split and at a sliced single split. -/
theorem claim_c4_split_selection_witness :
    (contains_plus "train+validation" = true ∧
      (load_streaming_dataset denv0 "d" none "train+validation").sources =
        (split_plus "train+validation").map (fun split_name =>
          { name := "d", config := none, split := split_name })) ∧
    (contains_plus "validation[:10]" = false ∧
      (load_streaming_dataset denv0 "d" none "validation[:10]").sources =
        [{ name := "d", config := none, split := "validation[:10]" }]) :=
  ⟨⟨by decide,
    ((claim_c4_split_selection denv0 "d" none "train+validation").1
      (by decide)).2.2⟩,
   ⟨by decide,
    ((claim_c4_split_selection denv0 "d" none "validation[:10]").2
      (by decide)).2.2⟩⟩

/-- C3 fails on the code: on a concrete source the prepared test split is
not a streaming dataset (prepare_dataset.py loads it with a plain
load_dataset call), so the train and test splits are not both streaming. -/
theorem claim_c3_counterexample :
    ¬((prepare_dataset denv0 "hf-internal-testing/librispeech_asr_dummy"
        { baseline := "openai/whisper-tiny" }
        { baseline := "openai/whisper-tiny", language := "en", task := "transcribe" }
        "audio" "text" none "train+validation" "test" 256).train.streaming = true ∧
      (prepare_dataset denv0 "hf-internal-testing/librispeech_asr_dummy"
        { baseline := "openai/whisper-tiny" }
        { baseline := "openai/whisper-tiny", language := "en", task := "transcribe" }
        "audio" "text" none "train+validation" "test" 256).test.streaming = true) := by
  decide

/-- C3 amended: after prepare_dataset the train split is always a streaming
dataset, but the test split never is (it is loaded eagerly). -/
theorem claim_c3_amended_streaming (denv : DataEnv) (src_name : String)
    (fe : WhisperFeatureExtractor) (tok : WhisperTokenizer)
    (ac tc : String) (subset : Option String) (tr te : String) (bs : Nat) :
    (prepare_dataset denv src_name fe tok ac tc subset tr te bs).train.streaming
      = true ∧
    (prepare_dataset denv src_name fe tok ac tc subset tr te bs).test.streaming
      = false := by
  constructor
  · cases h : contains_plus tr with
    | false =>
      simp [prepare_dataset, load_streaming_dataset, h, load_dataset,
        HFDataset.remove_columns, HFDataset.cast_column, HFDataset.map_columns,
        HFDataset.with_format, HFDataset.shuffle]
    | true =>
      simp [prepare_dataset, load_streaming_dataset, h, load_dataset,
        interleave_datasets, HFDataset.remove_columns, HFDataset.cast_column,
        HFDataset.map_columns, HFDataset.with_format, HFDataset.shuffle,
        List.all_eq_true]
  · simp [prepare_dataset, load_dataset, HFDataset.remove_columns,
      HFDataset.cast_column, HFDataset.map_columns, HFDataset.with_format,
      HFDataset.shuffle]

/-- C9: the constructor never sets both mixed-precision flags (bf16 wins
and disables fp16), and set_baseline loads the model with the dtype that
matches the flags: bfloat16 under use_bf16, else float16 under use_fp16,
else float32. -/
theorem claim_c9_mixed_precision (env : HwEnv) (id : String)
    (org : Option String) (b l t : String) :
    (!((WhisperFineTuner.init env id org).use_bf16 &&
        (WhisperFineTuner.init env id org).use_fp16)) = true ∧
    ((WhisperFineTuner.init env id org).set_baseline b l t).baseline_model.map
        WhisperModel.dtype =
      some (if (WhisperFineTuner.init env id org).use_bf16 then DType.bfloat16
        else if (WhisperFineTuner.init env id org).use_fp16 then DType.float16
        else DType.float32) := by
  cases hb : env.bf16_available <;> cases hc : env.cuda_available <;>
    simp [WhisperFineTuner.init, WhisperFineTuner.set_baseline,
      WhisperFineTuner.pick_dtype, hb, hc]

/-- C10: set_metric loads the requested metric as primary and the other
member of the wer/cer pair as secondary; the two handles are distinct and
their names cover exactly the wer/cer pair, and only the two metric fields
of the builder change. -/
theorem claim_c10_set_metric (ft : WhisperFineTuner) (metric_type : String)
    (h : metric_type = "wer" ∨ metric_type = "cer") :
    (ft.set_metric metric_type).metric_primary =
      some (evaluate_load metric_type) ∧
    (ft.set_metric metric_type).metric_secondary =
      some (evaluate_load (if metric_type = "wer" then "cer" else "wer")) ∧
    (ft.set_metric metric_type).metric_primary ≠
      (ft.set_metric metric_type).metric_secondary ∧
    (∃ p s, (ft.set_metric metric_type).metric_primary = some p ∧
      (ft.set_metric metric_type).metric_secondary = some s ∧
      ({p.name, s.name} : Finset String) = {"wer", "cer"}) ∧
    ft.set_metric metric_type =
      { ft with
        metric_primary := (ft.set_metric metric_type).metric_primary
        metric_secondary := (ft.set_metric metric_type).metric_secondary } := by
  rcases h with h | h <;> subst h <;>
    exact ⟨rfl, rfl,
      by simp [WhisperFineTuner.set_metric, evaluate_load],
      ⟨_, _, rfl, rfl, by decide⟩,
      rfl⟩

/-- Witness for C10 at the wer metric type on a fresh builder. -/
theorem claim_c10_set_metric_witness :
    ("wer" = "wer" ∨ "wer" = "cer") ∧
    (ft0.set_metric "wer").metric_primary = some (evaluate_load "wer") :=
  ⟨Or.inl rfl, (claim_c10_set_metric ft0 "wer" (Or.inl rfl)).1⟩

/-- C1: prepare_dataset before set_baseline raises a ValueError with a
descriptive message, and train before both set_baseline and
prepare_dataset raises a ValueError with a descriptive message; each error
carries the untouched builder state, so the builder is unchanged. -/
theorem claim_c1_precondition_checks (ft : WhisperFineTuner) (denv : DataEnv)
    (sn ac tc : String) (subset : Option String) (tr te : String) (bs : Nat)
    (ta : Option TrainingArgs) (resume : Bool) (env : TrainEnv) :
    ((ft.feature_extractor = none ∨ ft.tokenizer = none) →
      ft.prepare_dataset denv sn ac tc subset tr te bs =
        Except.error ("Please set the baseline first.", ft)) ∧
    (ft.dataset = none →
      ft.train ta resume env =
        Except.error ("Please prepare or load the dataset first.", ft)) ∧
    (∀ ds, ft.dataset = some ds →
      (ft.feature_extractor = none ∨ ft.tokenizer = none) →
      ft.train ta resume env =
        Except.error ("Please set the baseline first.", ft)) := by
  refine ⟨?_, ?_, ?_⟩
  · rintro (h | h) <;>
      cases hfe : ft.feature_extractor <;>
      cases htok : ft.tokenizer <;>
      simp_all [WhisperFineTuner.prepare_dataset]
  · intro h
    simp [WhisperFineTuner.train, h]
  · rintro ds hds (h | h) <;>
      simp [WhisperFineTuner.train, hds, h]

/-- Witness for C1: a freshly initialized builder has neither baseline nor
dataset, and both calls fail with the untouched state. -/
theorem claim_c1_precondition_checks_witness :
    (ft0.feature_extractor = none ∨ ft0.tokenizer = none) ∧
    ft0.prepare_dataset denv0 "d" "audio" "transcription" none "train" "test" 256 =
      Except.error ("Please set the baseline first.", ft0) ∧
    ft0.dataset = none ∧
    ft0.train none false env0 =
      Except.error ("Please prepare or load the dataset first.", ft0) :=
  ⟨Or.inl rfl,
   (claim_c1_precondition_checks ft0 denv0 "d" "audio" "transcription" none
      "train" "test" 256 none false env0).1 (Or.inl rfl),
   rfl,
   (claim_c1_precondition_checks ft0 denv0 "d" "audio" "transcription" none
      "train" "test" 256 none false env0).2.1 rfl⟩

/-- On a builder that passed all checks, train succeeds and its outcome is
train_body applied to the builder after the argument replacement and the
epoch reset. -/
theorem train_eq_ok (ft : WhisperFineTuner) (ta : Option TrainingArgs)
    (resume : Bool) (env : TrainEnv) (ds : DatasetPair)
    (fe : WhisperFeatureExtractor) (tok : WhisperTokenizer)
    (bm : WhisperModel) (mp : EvaluationModule)
    (hds : ft.dataset = some ds) (hfe : ft.feature_extractor = some fe)
    (htok : ft.tokenizer = some tok) (hbm : ft.baseline_model = some bm)
    (hmp : ft.metric_primary = some mp) :
    ft.train ta resume env = Except.ok
      (train_body (set_epochs_zero (apply_training_args ft ta)) ds bm mp
        resume env) := by
  have hmp2 : (set_epochs_zero (apply_training_args ft ta)).metric_primary =
      some mp := by
    cases ta <;> simp [set_epochs_zero, apply_training_args, hmp]
  simp [WhisperFineTuner.train, hds, hfe, htok, hbm, hmp2]

/-- C2: when the resume attempt fails (no checkpoint, or the download when
an organization is set and the directory is absent fails or yields no
checkpoint), train with resume does not raise: it logs the reason, clears
the resume flag, and otherwise produces exactly the outcome of training
from scratch. -/
theorem claim_c2_resume_fallback (ft : WhisperFineTuner)
    (ta : Option TrainingArgs) (env : TrainEnv) (ds : DatasetPair)
    (fe : WhisperFeatureExtractor) (tok : WhisperTokenizer)
    (bm : WhisperModel) (mp : EvaluationModule) (e : String)
    (hds : ft.dataset = some ds) (hfe : ft.feature_extractor = some fe)
    (htok : ft.tokenizer = some tok) (hbm : ft.baseline_model = some bm)
    (hmp : ft.metric_primary = some mp)
    (herr : resume_attempt ft.org env = Except.error e) :
    ∃ out, ft.train ta false env = Except.ok out ∧
      out.resume_logs = [] ∧ out.effective_resume = false ∧
      ft.train ta true env = Except.ok
        { out with resume_logs :=
            ["Failed to resume training: " ++ e ++ ", starting from scratch."] } := by
  refine ⟨train_body (set_epochs_zero (apply_training_args ft ta)) ds bm mp
    false env, train_eq_ok ft ta false env ds fe tok bm mp hds hfe htok hbm hmp,
    ?_, ?_, ?_⟩
  · simp [train_body, resolve_resume]
  · simp [train_body, resolve_resume]
  · rw [train_eq_ok ft ta true env ds fe tok bm mp hds hfe htok hbm hmp]
    have horg : (set_epochs_zero (apply_training_args ft ta)).org = ft.org := by
      cases ta <;> simp [set_epochs_zero, apply_training_args]
    simp [train_body, resolve_resume, horg, herr]

/-- Witness for C2: a builder without organization, fresh directory and no
checkpoint; the resume attempt fails with the no-checkpoint reason and
train falls back to the from-scratch outcome. -/
theorem claim_c2_resume_fallback_witness :
    resume_attempt ft3.org env0 = Except.error "No checkpoint found." ∧
    (∃ out, ft3.train none false env0 = Except.ok out ∧
      out.resume_logs = [] ∧ out.effective_resume = false ∧
      ft3.train none true env0 = Except.ok
        { out with resume_logs :=
            ["Failed to resume training: " ++ "No checkpoint found." ++
              ", starting from scratch."] }) :=
  ⟨rfl, claim_c2_resume_fallback ft3 none env0 ds0 fe0 tok0 bm0 mp0
    "No checkpoint found." rfl rfl rfl rfl rfl rfl⟩

/-- The non-logging effects of the interrupt handler: save, then push
exactly when an organization is configured, then exit 0. -/
theorem effects_signal_handler (g : WhisperFineTuner) :
    effects (signal_handler g) =
      [Action.saveModel] ++
        (if g.org.isSome then [Action.pushToHub] else []) ++
        [Action.exitProcess 0] := by
  cases h : g.org <;> simp [signal_handler, effects, push_to_hub_actions, h]

/-- The interrupt handler pushes to the hub exactly when an organization is
configured. -/
theorem pushToHub_mem_signal_handler (g : WhisperFineTuner) :
    Action.pushToHub ∈ signal_handler g ↔ g.org.isSome = true := by
  cases h : g.org <;> simp [signal_handler, push_to_hub_actions, h]

/-- C5: every successful train call installs the interrupt handler built
from the final builder state; that handler first saves the model, then
pushes to the hub if and only if an organization is configured, then exits
with status 0 (so without an organization no upload is attempted). -/
theorem claim_c5_signal_handler (ft : WhisperFineTuner)
    (ta : Option TrainingArgs) (resume : Bool) (env : TrainEnv)
    (ds : DatasetPair) (fe : WhisperFeatureExtractor) (tok : WhisperTokenizer)
    (bm : WhisperModel) (mp : EvaluationModule)
    (hds : ft.dataset = some ds) (hfe : ft.feature_extractor = some fe)
    (htok : ft.tokenizer = some tok) (hbm : ft.baseline_model = some bm)
    (hmp : ft.metric_primary = some mp) :
    ∃ out, ft.train ta resume env = Except.ok out ∧
      out.handler = signal_handler out.ft ∧
      out.ft.org = ft.org ∧
      effects out.handler =
        [Action.saveModel] ++
          (if ft.org.isSome then [Action.pushToHub] else []) ++
          [Action.exitProcess 0] ∧
      (Action.pushToHub ∈ out.handler ↔ ft.org.isSome = true) := by
  have horg :
      (train_body (set_epochs_zero (apply_training_args ft ta)) ds bm mp
        resume env).ft.org = ft.org := by
    cases ta <;> simp [train_body, set_epochs_zero, apply_training_args]
  have hh :
      (train_body (set_epochs_zero (apply_training_args ft ta)) ds bm mp
          resume env).handler =
        signal_handler
          (train_body (set_epochs_zero (apply_training_args ft ta)) ds bm mp
            resume env).ft := by
    simp [train_body]
  refine ⟨_, train_eq_ok ft ta resume env ds fe tok bm mp hds hfe htok hbm hmp,
    hh, horg, ?_, ?_⟩
  · rw [hh, effects_signal_handler, horg]
  · rw [hh, pushToHub_mem_signal_handler, horg]

/-- Witness for C5 on a builder without organization: the handler saves,
pushes nothing, and exits 0. -/
theorem claim_c5_signal_handler_witness :
    ft3.metric_primary = some mp0 ∧
    (∃ out, ft3.train none false env0 = Except.ok out ∧
      out.handler = signal_handler out.ft ∧
      out.ft.org = ft3.org ∧
      effects out.handler =
        [Action.saveModel] ++
          (if ft3.org.isSome then [Action.pushToHub] else []) ++
          [Action.exitProcess 0] ∧
      (Action.pushToHub ∈ out.handler ↔ ft3.org.isSome = true)) :=
  ⟨rfl, claim_c5_signal_handler ft3 none false env0 ds0 fe0 tok0 bm0 mp0
    rfl rfl rfl rfl rfl⟩

/-- C8: every successful train call, with or without explicit training
arguments and whatever epoch count they carried, runs with
num_train_epochs forced to 0, both in the stored arguments and in the
arguments the trainer is constructed with. -/
theorem claim_c8_num_train_epochs (ft : WhisperFineTuner)
    (ta : Option TrainingArgs) (resume : Bool) (env : TrainEnv)
    (ds : DatasetPair) (fe : WhisperFeatureExtractor) (tok : WhisperTokenizer)
    (bm : WhisperModel) (mp : EvaluationModule)
    (hds : ft.dataset = some ds) (hfe : ft.feature_extractor = some fe)
    (htok : ft.tokenizer = some tok) (hbm : ft.baseline_model = some bm)
    (hmp : ft.metric_primary = some mp) :
    ∃ out, ft.train ta resume env = Except.ok out ∧
      out.ft.training_args.num_train_epochs = 0 ∧
      out.trainer.args.num_train_epochs = 0 := by
  refine ⟨_, train_eq_ok ft ta resume env ds fe tok bm mp hds hfe htok hbm hmp,
    ?_, ?_⟩ <;>
    cases ta <;>
    simp [train_body, set_epochs_zero, apply_training_args]

/-- Witness for C8 with explicit training arguments carrying 42 epochs. -/
theorem claim_c8_num_train_epochs_witness :
    ta42.num_train_epochs = 42 ∧ ft3.dataset = some ds0 ∧
    (∃ out, ft3.train (some ta42) false env0 = Except.ok out ∧
      out.ft.training_args.num_train_epochs = 0 ∧
      out.trainer.args.num_train_epochs = 0) :=
  ⟨rfl, rfl, claim_c8_num_train_epochs ft3 (some ta42) false env0 ds0 fe0 tok0
    bm0 mp0 rfl rfl rfl rfl rfl⟩

/-- C7: merge_and_save on a builder holding a peft model, processor and
tokenizer succeeds, returns the same builder unchanged, writes the adapter
merged into the base model, and afterwards the output directory contains
the model-weights file and the configuration file. -/
theorem claim_c7_merge_and_save (ft : WhisperFineTuner) (outdir : String)
    (dt : Option DType) (fs : List String)
    (hpm : ft.peft_model.isSome = true) (hproc : ft.processor.isSome = true)
    (htok : ft.tokenizer.isSome = true) :
    ∃ so, ft.merge_and_save outdir dt fs = Except.ok so ∧
      so.ft = ft ∧
      (∀ pm, ft.peft_model = some pm →
        so.merged = { base := pm.base, config := pm.config,
                      dtype := dt.getD ft.pick_dtype }) ∧
      (outdir ++ "/model.safetensors") ∈ so.files ∧
      (outdir ++ "/config.json") ∈ so.files := by
  rcases Option.isSome_iff_exists.mp hpm with ⟨pm, hpm2⟩
  rcases Option.isSome_iff_exists.mp hproc with ⟨pr, hpr⟩
  rcases Option.isSome_iff_exists.mp htok with ⟨tk, htk⟩
  refine ⟨{ ft := ft
            merged := { base := pm.base, config := pm.config,
                        dtype := dt.getD ft.pick_dtype }
            files := fs ++ model_save_pretrained outdir
              ++ processor_save_pretrained outdir
              ++ tokenizer_save_pretrained outdir }, ?_, rfl, ?_, ?_, ?_⟩
  · cases dt <;>
      simp [WhisperFineTuner.merge_and_save, WhisperFineTuner.merge, hpm2,
        hpr, htk]
  · intro pm2 hpm3
    rw [hpm2] at hpm3
    cases hpm3
    rfl
  · simp [model_save_pretrained]
  · simp [model_save_pretrained]

/-- Witness for C7 on the builder produced by the full chain: the files of
the merged model are written into the requested directory. -/
theorem claim_c7_merge_and_save_witness :
    ft4.peft_model.isSome = true ∧
    (∃ so, ft4.merge_and_save "./exp/whisper-test-1/merged" none []
        = Except.ok so ∧
      so.ft = ft4 ∧
      (∀ pm, ft4.peft_model = some pm →
        so.merged = { base := pm.base, config := pm.config,
                      dtype := Option.getD none ft4.pick_dtype }) ∧
      ("./exp/whisper-test-1/merged" ++ "/model.safetensors") ∈ so.files ∧
      ("./exp/whisper-test-1/merged" ++ "/config.json") ∈ so.files) :=
  ⟨rfl, claim_c7_merge_and_save ft4 "./exp/whisper-test-1/merged" none []
    rfl rfl rfl⟩

/-- C6: on equal-length decoded label and prediction lists, compute_metrics
returns both metric values as 100 times the metric compute result, and a
markdown report in which the incorrect-predictions table (one row per index
with label different from prediction) precedes the correct-predictions
table (one row per index with label equal to prediction), each table
listing its rows in increasing index order. -/
theorem claim_c6_compute_metrics (mp ms : EvaluationModule)
    (cf : String → List String → List String → Rat)
    (label_str pred_str : List String)
    (h : label_str.length = pred_str.length) :
    (compute_metrics mp ms cf label_str pred_str).primary_value =
      100 * cf mp.name pred_str label_str ∧
    (compute_metrics mp ms cf label_str pred_str).secondary_value =
      100 * cf ms.name pred_str label_str ∧
    (compute_metrics mp ms cf label_str pred_str).pred =
      mismatch_header ++ concat_rows (mismatch_rows label_str pred_str) ++ "\n"
        ++ "\n" ++
        (match_header ++ concat_rows (matched_rows label_str pred_str) ++ "\n") ∧
    (∀ i l p, (i, (l, p)) ∈ (label_str.zip pred_str).enum → l ≠ p →
      mismatch_row i l p ∈ mismatch_rows label_str pred_str) ∧
    (∀ i l p, (i, (l, p)) ∈ (label_str.zip pred_str).enum → l = p →
      match_row i p ∈ matched_rows label_str pred_str) ∧
    List.Pairwise (fun a b => a < b)
      ((((label_str.zip pred_str).enum).filter (fun q => q.2.1 != q.2.2)).map
        Prod.fst) ∧
    List.Pairwise (fun a b => a < b)
      ((((label_str.zip pred_str).enum).filter (fun q => q.2.1 == q.2.2)).map
        Prod.fst) := by
  refine ⟨rfl, rfl, ?_, ?_, ?_, ?_, ?_⟩
  · simp only [compute_metrics, tables_fold_eq, mismatch_rows, matched_rows]
  · intro i l p hm hne
    exact List.mem_map.mpr ⟨(i, (l, p)),
      List.mem_filter.mpr ⟨hm, by simp [hne]⟩, rfl⟩
  · intro i l p hm hp
    exact List.mem_map.mpr ⟨(i, (l, p)),
      List.mem_filter.mpr ⟨hm, by simp [hp]⟩, rfl⟩
  · exact (List.pairwise_lt_range _).sublist
      (List.enum_map_fst _ ▸ (List.filter_sublist _).map Prod.fst)
  · exact (List.pairwise_lt_range _).sublist
      (List.enum_map_fst _ ▸ (List.filter_sublist _).map Prod.fst)

/-- Witness for C6 on a concrete two-element batch of equal length. -/
theorem claim_c6_compute_metrics_witness :
    (["a", "b"] : List String).length = (["a", "c"] : List String).length ∧
    (compute_metrics mp0 ms0 cf0 ["a", "b"] ["a", "c"]).primary_value =
      100 * cf0 mp0.name ["a", "c"] ["a", "b"] :=
  ⟨rfl, (claim_c6_compute_metrics mp0 ms0 cf0 ["a", "b"] ["a", "c"] rfl).1⟩

end Wft
